import Mathlib

/-!
Verification of core behaviors of the MethaneKit graphics core:
the command-list state machine (CommandListBase.cpp), the resource
manager's descriptor-heap bookkeeping (ResourceManager.cpp) and the
render-pass attachment logic (RenderPassBase.cpp), shallowly embedded
in Lean 4.

C++ member mutation plus exceptions is modelled by functions returning
the (possibly updated) object together with an optional error: a call
that throws returns the original object unchanged, mirroring the fact
that every throwing path in the embedded sources throws before any
member is mutated.
-/

namespace Methane

/-- Error kinds thrown by the embedded code: std::logic_error,
std::underflow_error and std::invalid_argument. -/
inductive Err where
  | logicErr
  | underflowErr
  | invalidArgErr
deriving DecidableEq, Repr

namespace Graphics

/-- CommandListBase::State (CommandListBase.h): Pending, Committed, Executing. -/
inductive CLState where
  | Pending
  | Committed
  | Executing
deriving DecidableEq, Repr

/-- Modelled from the spec: the internal command-recording state of a
command list (CommandListBase::CommandState, declared in the header that
is not part of the sampled sources). The spec only requires that a fresh
command state has the current program-bindings pointer cleared; the
pointer is modelled as an optional identifier. -/
structure CommandState where
  p_program_bindings : Option Nat
deriving DecidableEq, Repr

/-- Modelled from the spec: CommandState::Create produces a fresh
recording state with the program-bindings pointer cleared. -/
def CommandState.Create : CommandState :=
  { p_program_bindings := none }

/-- CommandListBase (CommandListBase.cpp): state field, committed frame
index, stack of open debug-group names (head of the list is the top of
the stack) and the internal command-recording state. The debug-group
name pool (m_debug_group_names) only interns strings for profiling and
is not observable at this level, so it is not modelled. -/
structure CommandListBase where
  m_state : CLState
  m_committed_frame_index : Nat
  m_open_debug_groups : List String
  m_command_state : CommandState
deriving DecidableEq, Repr

namespace CommandListBase

/-- CommandListBase::PushDebugGroup: pushes a debug-group name on the
stack of open groups (profiling instrumentation is not modelled). -/
def PushDebugGroup (cl : CommandListBase) (name : String) : CommandListBase :=
  { cl with m_open_debug_groups := name :: cl.m_open_debug_groups }

/-- CommandListBase::PopDebugGroup: throws std::underflow_error when no
debug group is open, otherwise pops the top group. -/
def PopDebugGroup (cl : CommandListBase) : CommandListBase × Option Err :=
  match cl.m_open_debug_groups with
  | [] => (cl, some .underflowErr)
  | _ :: rest => ({ cl with m_open_debug_groups := rest }, none)

/-- CommandListBase::Reset(debug_group): throws std::logic_error unless
the list is Pending; otherwise pops the previously open group when the
requested name differs, and pushes the new name when it is non-empty and
differs from the previous top. -/
def Reset (cl : CommandListBase) (debug_group : String) :
    CommandListBase × Option Err :=
  if cl.m_state ≠ CLState.Pending then (cl, some .logicErr)
  else
    let debug_group_changed :=
      cl.m_open_debug_groups.isEmpty ||
      cl.m_open_debug_groups.head? != some debug_group
    let cl1 :=
      if ¬cl.m_open_debug_groups.isEmpty ∧ debug_group_changed then
        (PopDebugGroup cl).1
      else cl
    let cl2 :=
      if debug_group ≠ "" ∧ debug_group_changed then
        PushDebugGroup cl1 debug_group
      else cl1
    (cl2, none)

/-- CommandListBase::ResetCommandState: replaces the internal recording
state with a freshly created one. -/
def ResetCommandState (cl : CommandListBase) : CommandListBase :=
  { cl with m_command_state := CommandState.Create }

/-- The complete Reset operation of a concrete command list: per the NOTE
in CommandListBase::Reset, ResetCommandState() is called from the
top-most overridden Reset method after the base Reset succeeds. -/
def ResetFull (cl : CommandListBase) (debug_group : String) :
    CommandListBase × Option Err :=
  match Reset cl debug_group with
  | (cl1, none) => (ResetCommandState cl1, none)
  | (cl1, some e) => (cl1, some e)

/-- CommandListBase::SetProgramBindings: throws std::logic_error unless
Pending; otherwise records the bindings as current (the backend Apply
call is not modelled). -/
def SetProgramBindings (cl : CommandListBase) (bindings : Nat) :
    CommandListBase × Option Err :=
  if cl.m_state ≠ CLState.Pending then (cl, some .logicErr)
  else
    ({ cl with m_command_state := { p_program_bindings := some bindings } }, none)

/-- CommandListBase::Commit: throws std::logic_error unless Pending;
otherwise records the queue's current frame index as the committed frame
index, transitions to Committed, and pops the top open debug group when
one is open. `current_frame_index` stands for
GetCommandQueueBase().GetCurrentFrameBufferIndex(). -/
def Commit (cl : CommandListBase) (current_frame_index : Nat) :
    CommandListBase × Option Err :=
  if cl.m_state ≠ CLState.Pending then (cl, some .logicErr)
  else
    let cl1 := { cl with
      m_committed_frame_index := current_frame_index,
      m_state := CLState.Committed }
    let cl2 :=
      if ¬cl1.m_open_debug_groups.isEmpty then (PopDebugGroup cl1).1 else cl1
    (cl2, none)

/-- CommandListBase::Execute(frame_index): throws std::logic_error
unless Committed with a matching committed frame index; otherwise
transitions to Executing. -/
def Execute (cl : CommandListBase) (frame_index : Nat) :
    CommandListBase × Option Err :=
  if cl.m_state ≠ CLState.Committed then (cl, some .logicErr)
  else if cl.m_committed_frame_index ≠ frame_index then (cl, some .logicErr)
  else ({ cl with m_state := CLState.Executing }, none)

/-- CommandListBase::Complete(frame_index): throws std::logic_error
unless Executing with a matching committed frame index; otherwise
transitions back to Pending. -/
def Complete (cl : CommandListBase) (frame_index : Nat) :
    CommandListBase × Option Err :=
  if cl.m_state ≠ CLState.Executing then (cl, some .logicErr)
  else if cl.m_committed_frame_index ≠ frame_index then (cl, some .logicErr)
  else ({ cl with m_state := CLState.Pending }, none)

end CommandListBase

/-- Modelled from the spec: the fixed descriptor-heap-type enumeration
(DescriptorHeap::Type, declared in DescriptorHeap.h which is not part of
the sampled sources) with its real types indexed 0..3 and the sentinel
values Count and Undefined used by ResourceManager.cpp. -/
inductive DescriptorHeapType where
  | ShaderResources
  | Samplers
  | RenderTargets
  | DepthStencil
  | Count
  | Undefined
deriving DecidableEq, Repr

namespace DescriptorHeapType

/-- The numeric value of a heap type used to index the per-type bucket
array (static_cast of the enum in ResourceManager.cpp). -/
def index : DescriptorHeapType → Nat
  | .ShaderResources => 0
  | .Samplers => 1
  | .RenderTargets => 2
  | .DepthStencil => 3
  | .Count => 4
  | .Undefined => 5

/-- A sentinel heap type is Undefined or Count; both are rejected by the
resource manager's entry points. -/
def isSentinel (t : DescriptorHeapType) : Bool :=
  t == .Undefined || t == .Count

end DescriptorHeapType

/-- Modelled from the spec: DescriptorHeap::IsShaderVisibleHeapType — the
heap types flagged shader-visible-capable, for which Initialize creates an
additional GPU-visible heap (shader-resource and sampler heaps). -/
def IsShaderVisibleHeapType (t : DescriptorHeapType) : Bool :=
  t == .ShaderResources || t == .Samplers

/-- DescriptorHeap::Settings: heap type, size, deferred-allocation flag
and shader visibility (the brace-initialized aggregate used throughout
ResourceManager.cpp). -/
structure DescriptorHeapSettings where
  type : DescriptorHeapType
  size : Nat
  deferred_allocation : Bool
  shader_visible : Bool
deriving DecidableEq, Repr

/-- A descriptor heap as observed through GetSettings(): the creation
settings (DescriptorHeap::Create stores them; physical descriptor storage
is backend-side and not modelled). -/
structure DescriptorHeap where
  settings : DescriptorHeapSettings
deriving DecidableEq, Repr

/-- DescriptorHeap::Create(context, settings): records the settings (the
context argument plays no role at this level). -/
def DescriptorHeap.Create (settings : DescriptorHeapSettings) : DescriptorHeap :=
  { settings := settings }

/-- ResourceManager::Settings: per-type default and shader-visible heap
sizes (arrays indexed by heap-type value) and the deferred-allocation
flag. -/
structure ResourceManagerSettings where
  default_heap_sizes : Nat → Nat
  shader_visible_heap_sizes : Nat → Nat
  deferred_heap_allocation : Bool

/-- ResourceManager: the per-type descriptor-heap buckets
(m_descriptor_heap_types, a fixed array with one bucket per real heap
type — modelled as a function on heap types where sentinel entries are
conventionally empty and never accessed) and the deferred-allocation
flag. The release pool and program-bindings registry play no role in the
claims considered here. -/
structure ResourceManager where
  m_deferred_heap_allocation : Bool
  m_descriptor_heap_types : DescriptorHeapType → List DescriptorHeap

namespace ResourceManager

/-- The bucket ResourceManager::Initialize builds for one heap type: one
CPU-only heap sized by default_heap_sizes, plus one shader-visible heap
sized by shader_visible_heap_sizes when the type is
shader-visible-capable. Sentinel types have no bucket. -/
def initBucket (settings : ResourceManagerSettings) (t : DescriptorHeapType) :
    List DescriptorHeap :=
  if t.isSentinel then []
  else
    let cpu_heap := DescriptorHeap.Create
      ⟨t, settings.default_heap_sizes t.index,
        settings.deferred_heap_allocation, false⟩
    if IsShaderVisibleHeapType t then
      [cpu_heap,
       DescriptorHeap.Create
         ⟨t, settings.shader_visible_heap_sizes t.index,
           settings.deferred_heap_allocation, true⟩]
    else [cpu_heap]

/-- ResourceManager::Initialize: stores the deferred-allocation flag and
rebuilds every per-type bucket from the settings. -/
def Initialize (rm : ResourceManager) (settings : ResourceManagerSettings) :
    ResourceManager :=
  { rm with
    m_deferred_heap_allocation := settings.deferred_heap_allocation,
    m_descriptor_heap_types := initBucket settings }

/-- ResourceManager::CreateDescriptorHeap: throws std::invalid_argument
on a sentinel heap type; otherwise appends a newly created heap to that
type's bucket and returns its index within the bucket. -/
def CreateDescriptorHeap (rm : ResourceManager)
    (settings : DescriptorHeapSettings) :
    ResourceManager × Except Err Nat :=
  if settings.type.isSentinel then (rm, .error .invalidArgErr)
  else
    let desc_heaps := rm.m_descriptor_heap_types settings.type
    let desc_heaps2 := desc_heaps ++ [DescriptorHeap.Create settings]
    ({ rm with
       m_descriptor_heap_types := fun t =>
         if t = settings.type then desc_heaps2
         else rm.m_descriptor_heap_types t },
     .ok desc_heaps.length)

/-- ResourceManager::GetDescriptorHeap (through GetDescriptorHeapPtr):
throws std::invalid_argument on a sentinel type or an out-of-range index;
otherwise returns the stored heap. -/
def GetDescriptorHeap (rm : ResourceManager) (t : DescriptorHeapType)
    (heap_index : Nat) : Except Err DescriptorHeap :=
  if t.isSentinel then .error .invalidArgErr
  else
    match (rm.m_descriptor_heap_types t)[heap_index]? with
    | none => .error .invalidArgErr
    | some h => .ok h

/-- The per-bucket consistency check of
ResourceManager::ForEachDescriptorHeap: every heap in the bucket of type
t must itself report type t; a mismatch throws std::logic_error. -/
def bucketCheck (t : DescriptorHeapType) :
    List DescriptorHeap → Except Err Unit
  | [] => .ok ()
  | h :: rest =>
    if h.settings.type ≠ t then .error .logicErr
    else bucketCheck t rest

/-- The real (non-sentinel) heap types in bucket order, as iterated by
the loops of Initialize and ForEachDescriptorHeap. -/
def realHeapTypes : List DescriptorHeapType :=
  [.ShaderResources, .Samplers, .RenderTargets, .DepthStencil]

/-- The type-consistency traversal of
ResourceManager::ForEachDescriptorHeap, with the heap-processing callback
stripped: visits every real type's bucket and throws std::logic_error at
the first heap whose reported type differs from its bucket's type. -/
def ForEachDescriptorHeapCheck (rm : ResourceManager) : Except Err Unit :=
  go realHeapTypes
where
  go : List DescriptorHeapType → Except Err Unit
    | [] => .ok ()
    | t :: ts =>
      match bucketCheck t (rm.m_descriptor_heap_types t) with
      | .ok () => go ts
      | .error e => .error e

/-- The invariant enforced by ForEachDescriptorHeap: every heap stored
under the bucket of type t reports type t. -/
def heapsTypeConsistent (rm : ResourceManager) : Prop :=
  ∀ t ∈ realHeapTypes, ∀ h ∈ rm.m_descriptor_heap_types t,
    h.settings.type = t

end ResourceManager

/-- Modelled from the spec: the resource-state enumeration of
ResourceBase (ResourceBase.h is not part of the sampled sources); the
states used by the render-pass logic. -/
inductive ResState where
  | Common
  | RenderTarget
  | DepthWrite
  | Present
deriving DecidableEq, Repr

/-- A transition barrier (ResourceBase::Barrier of type Transition):
the resource (modelled by a texture identifier) and the before/after
states. -/
structure Barrier where
  texture : Nat
  state_before : ResState
  state_after : ResState
deriving DecidableEq, Repr

/-- A barrier set (ResourceBase::Barriers): a duplicate-free collection
of transition barriers. -/
abbrev Barriers := List Barrier

/-- Adding a barrier to a barrier set keeps the set duplicate-free. -/
def Barriers.add (bs : Barriers) (b : Barrier) : Barriers :=
  if b ∈ bs then bs else bs ++ [b]

/-- The states of all textures, keyed by texture identifier; textures
start in the Common state. -/
abbrev TexStates := List (Nat × ResState)

/-- The current state of a texture (Common when never set). -/
def TexStates.getState (ts : TexStates) (id : Nat) : ResState :=
  match List.find? (fun p => p.1 == id) ts with
  | some p => p.2
  | none => ResState.Common

/-- Overwrites the recorded state of one texture. -/
def TexStates.setRaw (ts : TexStates) (id : Nat) (s : ResState) : TexStates :=
  (id, s) :: List.filter (fun p => p.1 != id) ts

/-- Modelled from the spec: ResourceBase::SetState(state, barriers) — the
single state-mutation operation (ResourceBase.cpp is not part of the
sampled sources): when the state actually changes it appends a transition
barrier from the old to the new state (creating the barrier set when none
exists yet), updates the state and reports the change; otherwise it is a
no-op reporting no change. -/
def Resource.SetState (ts : TexStates) (id : Nat) (new_state : ResState)
    (bar : Option Barriers) : TexStates × Option Barriers × Bool :=
  let cur := ts.getState id
  if cur = new_state then (ts, bar, false)
  else
    let bar2 := Barriers.add (bar.getD []) ⟨id, cur, new_state⟩
    (ts.setRaw id new_state, some bar2, true)

/-- RenderPass::Attachment load actions (RenderPass.h, modelled from the
spec: load action in Clear, DontCare, Load). -/
inductive LoadAction where
  | DontCare
  | Load
  | Clear
deriving DecidableEq, Repr

/-- RenderPass::Attachment store actions (RenderPass.h, modelled from the
spec: store action in Store, DontCare). -/
inductive StoreAction where
  | DontCare
  | Store
deriving DecidableEq, Repr

/-- RenderPass::Attachment: texture reference (none models a null
shared_ptr), mip level, array slice, depth plane, load and store
actions. -/
structure Attachment where
  sp_texture : Option Nat
  level : Nat
  slice : Nat
  depth_plane : Nat
  load_action : LoadAction
  store_action : StoreAction
deriving DecidableEq, Repr

/-- RenderPass::ColorAttachment: an attachment plus a clear color
(modelled by an opaque numeric value). -/
structure ColorAttachment extends Attachment where
  clear_color : Nat
deriving DecidableEq, Repr

/-- RenderPass::DepthAttachment: an attachment plus a depth clear
value. -/
structure DepthAttachment extends Attachment where
  clear_value : Nat
deriving DecidableEq, Repr

/-- RenderPass::StencilAttachment: an attachment plus a stencil clear
value. -/
structure StencilAttachment extends Attachment where
  clear_value : Nat
deriving DecidableEq, Repr

/-- RenderPass::Settings: ordered color attachments, optional depth and
stencil attachments (a default-constructed attachment with a null texture
models their absence), shader-access mask and final-pass flag. -/
structure RenderPassSettings where
  color_attachments : List ColorAttachment
  depth_attachment : DepthAttachment
  stencil_attachment : StencilAttachment
  shader_access_mask : Nat
  is_final_pass : Bool
deriving DecidableEq, Repr

/-- RenderPass::Attachment::operator== (RenderPassBase.cpp, lines
35-44): field-by-field value comparison. -/
def Attachment.eq (a b : Attachment) : Bool :=
  a.sp_texture == b.sp_texture &&
  a.level == b.level &&
  a.slice == b.slice &&
  a.depth_plane == b.depth_plane &&
  a.load_action == b.load_action &&
  a.store_action == b.store_action

/-- RenderPass::ColorAttachment::operator==: attachment fields plus the
clear color. -/
def ColorAttachment.eq (a b : ColorAttachment) : Bool :=
  Attachment.eq a.toAttachment b.toAttachment && a.clear_color == b.clear_color

/-- RenderPass::DepthAttachment::operator==: attachment fields plus the
clear value. -/
def DepthAttachment.eq (a b : DepthAttachment) : Bool :=
  Attachment.eq a.toAttachment b.toAttachment && a.clear_value == b.clear_value

/-- RenderPass::StencilAttachment::operator==: attachment fields plus
the clear value. -/
def StencilAttachment.eq (a b : StencilAttachment) : Bool :=
  Attachment.eq a.toAttachment b.toAttachment && a.clear_value == b.clear_value

/-- Element-wise comparison of attachment vectors (std::vector
operator== with the element comparison above). -/
def listEqBy {α : Type} (f : α → α → Bool) : List α → List α → Bool
  | [], [] => true
  | a :: as_, b :: bs => f a b && listEqBy f as_ bs
  | _, _ => false

/-- RenderPass::Settings::operator== (RenderPassBase.cpp, lines 67-75):
color attachments, depth attachment, stencil attachment, shader-access
mask and final-pass flag, all compared by value. -/
def RenderPassSettings.eq (a b : RenderPassSettings) : Bool :=
  listEqBy ColorAttachment.eq a.color_attachments b.color_attachments &&
  DepthAttachment.eq a.depth_attachment b.depth_attachment &&
  StencilAttachment.eq a.stencil_attachment b.stencil_attachment &&
  a.shader_access_mask == b.shader_access_mask &&
  a.is_final_pass == b.is_final_pass

/-- RenderPassBase: current settings, the begun flag, the memoized
attachment-texture lists and depth-texture pointer (empty list / none
mean "not computed yet") and the cached begin/end transition-barrier
sets. -/
structure RenderPassBase where
  m_settings : RenderPassSettings
  m_is_begun : Bool
  m_color_attachment_textures : List Nat
  m_p_depth_attachment_texture : Option Nat
  m_non_frame_buffer_attachment_textures : List Nat
  m_sp_begin_transition_barriers : Option Barriers
  m_sp_end_transition_barriers : Option Barriers
deriving DecidableEq, Repr

namespace RenderPassBase

/-- The loop body of RenderPassBase::GetColorAttachmentTextures: walks
the color attachments pushing each texture into the memoization list,
and stops with an error at the first attachment whose texture is null
(the C++ code throws there, leaving the partially filled member). -/
def buildColorTextures : List ColorAttachment → List Nat → List Nat × Bool
  | [], acc => (acc, false)
  | a :: rest, acc =>
    match a.sp_texture with
    | none => (acc, true)
    | some t => buildColorTextures rest (acc ++ [t])

/-- RenderPassBase::GetColorAttachmentTextures: returns the memoized
list when non-empty; otherwise fills it from the settings, throwing
std::invalid_argument at the first color attachment without a texture
(textures pushed before the throw stay in the member). -/
def GetColorAttachmentTextures (rp : RenderPassBase) :
    RenderPassBase × Except Err (List Nat) :=
  if rp.m_color_attachment_textures ≠ [] then
    (rp, .ok rp.m_color_attachment_textures)
  else
    let (texs, failed) :=
      buildColorTextures rp.m_settings.color_attachments []
    let rp1 := { rp with m_color_attachment_textures := texs }
    if failed then (rp1, .error .invalidArgErr) else (rp1, .ok texs)

/-- RenderPassBase::GetDepthAttachmentTexture: memoizes the depth
attachment's texture pointer when the settings hold one, and returns the
cached pointer. -/
def GetDepthAttachmentTexture (rp : RenderPassBase) :
    RenderPassBase × Option Nat :=
  let cached :=
    match rp.m_p_depth_attachment_texture,
          rp.m_settings.depth_attachment.sp_texture with
    | none, some t => some t
    | c, _ => c
  ({ rp with m_p_depth_attachment_texture := cached }, cached)

/-- The color loop of RenderPassBase::SetAttachmentStates: applies
SetState to every color attachment texture, accumulating the barrier set
and whether any state actually changed. -/
def setStatesFold (new_state : ResState) :
    List Nat → TexStates → Option Barriers → Bool →
    TexStates × Option Barriers × Bool
  | [], ts, bar, changed => (ts, bar, changed)
  | id :: rest, ts, bar, changed =>
    let (ts1, bar1, ch) := Resource.SetState ts id new_state bar
    setStatesFold new_state rest ts1 bar1 (changed || ch)

/-- The tail of RenderPassBase::SetAttachmentStates: barriers are sent
to the command list only when a barrier set exists and some attachment
actually changed state; the function returns the updated pass and
texture states, the updated barrier set, and the list of barriers
emitted on the command list (empty when none were emitted). -/
def emitPhase (rp : RenderPassBase) (ts : TexStates) (bar : Option Barriers)
    (changed : Bool) :
    ((RenderPassBase × TexStates) × Option Barriers × Barriers) × Option Err :=
  let emitted : Barriers :=
    match bar with
    | some bs => if changed then bs else []
    | none => []
  (((rp, ts), bar, emitted), none)

/-- The depth part of RenderPassBase::SetAttachmentStates: when a depth
target state is requested and a depth texture exists, applies SetState
to it. -/
def finishAttachmentStates (rp : RenderPassBase) (ts : TexStates)
    (depth_state : Option ResState) (bar : Option Barriers) (changed : Bool) :
    ((RenderPassBase × TexStates) × Option Barriers × Barriers) × Option Err :=
  match depth_state with
  | none => emitPhase rp ts bar changed
  | some ds =>
    let (rp2, p_depth) := GetDepthAttachmentTexture rp
    match p_depth with
    | none => emitPhase rp2 ts bar changed
    | some tid =>
      let (ts2, bar2, ch) := Resource.SetState ts tid ds bar
      emitPhase rp2 ts2 bar2 (changed || ch)

/-- RenderPassBase::SetAttachmentStates(color_state, depth_state,
transition_barriers, cmd_list): transitions the color attachment
textures (when a color state is given) and the depth texture (when a
depth state is given and present), and emits the accumulated barrier set
on the command list only when some state actually changed. A null color
attachment texture makes GetColorAttachmentTextures throw out of this
function. -/
def SetAttachmentStates (rp : RenderPassBase) (ts : TexStates)
    (color_state depth_state : Option ResState) (bar : Option Barriers) :
    ((RenderPassBase × TexStates) × Option Barriers × Barriers) × Option Err :=
  match color_state with
  | none => finishAttachmentStates rp ts depth_state bar false
  | some cs =>
    let (rp1, r) := GetColorAttachmentTextures rp
    match r with
    | .error e => (((rp1, ts), bar, []), some e)
    | .ok texs =>
      let (ts1, bar1, ch) := setStatesFold cs texs ts bar false
      finishAttachmentStates rp1 ts1 depth_state bar1 ch

/-- RenderPassBase::Begin(cmd_list): throws std::logic_error when the
pass is already begun; otherwise transitions color attachments to
RenderTarget and the depth attachment to DepthWrite through the
begin-transition-barrier member, emits the barriers on the command list
when states changed, and marks the pass begun. The returned barrier list
is what was emitted on the command list. -/
def Begin (rp : RenderPassBase) (ts : TexStates) :
    ((RenderPassBase × TexStates) × Barriers) × Option Err :=
  if rp.m_is_begun then (((rp, ts), []), some .logicErr)
  else
    let (((rp1, ts1), bar1, emitted), e) :=
      SetAttachmentStates rp ts (some .RenderTarget) (some .DepthWrite)
        rp.m_sp_begin_transition_barriers
    let rp2 := { rp1 with m_sp_begin_transition_barriers := bar1 }
    match e with
    | some err => (((rp2, ts1), emitted), some err)
    | none => ((({ rp2 with m_is_begun := true }, ts1), emitted), none)

/-- RenderPassBase::End(cmd_list): throws std::logic_error when the pass
was not begun; for a final pass transitions color attachments to Present
through the end-transition-barrier member; always clears the begun
flag on the non-throwing paths. -/
def «End» (rp : RenderPassBase) (ts : TexStates) :
    ((RenderPassBase × TexStates) × Barriers) × Option Err :=
  if ¬rp.m_is_begun then (((rp, ts), []), some .logicErr)
  else if rp.m_settings.is_final_pass then
    let (((rp1, ts1), bar1, emitted), e) :=
      SetAttachmentStates rp ts (some .Present) none
        rp.m_sp_end_transition_barriers
    let rp2 := { rp1 with m_sp_end_transition_barriers := bar1 }
    match e with
    | some err => (((rp2, ts1), emitted), some err)
    | none => ((({ rp2 with m_is_begun := false }, ts1), emitted), none)
  else ((({ rp with m_is_begun := false }, ts), []), none)

/-- The per-texture body of RenderPassBase::InitAttachmentStates:
textures found in the Common state are moved to Present through a local
barrier set that is discarded when the function returns. -/
def initStatesFold : List Nat → TexStates × Option Barriers →
    TexStates × Option Barriers
  | [], acc => acc
  | id :: rest, (ts, bar) =>
    if ts.getState id = ResState.Common then
      let (ts1, bar1, _) := Resource.SetState ts id ResState.Present bar
      initStatesFold rest (ts1, bar1)
    else initStatesFold rest (ts, bar)

/-- RenderPassBase::InitAttachmentStates: fetches the color attachment
textures (memoizing them, and throwing on a null texture) and moves
those in Common state to Present; the local transition-barrier set is
discarded. -/
def InitAttachmentStates (rp : RenderPassBase) (ts : TexStates) :
    (RenderPassBase × TexStates) × Option Err :=
  let (rp1, r) := GetColorAttachmentTextures rp
  match r with
  | .error e => ((rp1, ts), some e)
  | .ok texs => ((rp1, (initStatesFold texs (ts, none)).1), none)

/-- RenderPassBase::Update(settings): no change when the new settings
equal the current ones by value; otherwise replaces the settings, clears
the memoized texture lists, depth pointer and both barrier sets, and
re-initializes attachment states (which refills the color-texture
memoization from the new settings and may throw on a null texture). The
Bool is the returned "settings changed" flag. -/
def Update (rp : RenderPassBase) (ts : TexStates)
    (settings : RenderPassSettings) :
    ((RenderPassBase × TexStates) × Bool) × Option Err :=
  if RenderPassSettings.eq rp.m_settings settings then
    (((rp, ts), false), none)
  else
    let rp1 := { rp with
      m_settings := settings,
      m_non_frame_buffer_attachment_textures := [],
      m_color_attachment_textures := [],
      m_p_depth_attachment_texture := none,
      m_sp_begin_transition_barriers := none,
      m_sp_end_transition_barriers := none }
    let ((rp2, ts2), e) := InitAttachmentStates rp1 ts
    (((rp2, ts2), true), e)

end RenderPassBase

/-! Helper lemmas about the command-list operations. -/

/-- Popping a debug group never changes the list's state field. -/
theorem PopDebugGroup_fst_m_state (cl : CommandListBase) :
    ((CommandListBase.PopDebugGroup cl).1).m_state = cl.m_state := by
  rcases h : cl.m_open_debug_groups with _ | ⟨a, rest⟩ <;>
    simp [CommandListBase.PopDebugGroup, h]

/-- Popping a debug group never changes the committed frame index. -/
theorem PopDebugGroup_fst_m_frame (cl : CommandListBase) :
    ((CommandListBase.PopDebugGroup cl).1).m_committed_frame_index =
      cl.m_committed_frame_index := by
  rcases h : cl.m_open_debug_groups with _ | ⟨a, rest⟩ <;>
    simp [CommandListBase.PopDebugGroup, h]

/-- Popping a debug group leaves the tail of the debug-group stack. -/
theorem PopDebugGroup_fst_m_groups (cl : CommandListBase) :
    ((CommandListBase.PopDebugGroup cl).1).m_open_debug_groups =
      cl.m_open_debug_groups.tail := by
  rcases h : cl.m_open_debug_groups with _ | ⟨a, rest⟩ <;>
    simp [CommandListBase.PopDebugGroup, h]

/-- A successful Commit transitions the list to the Committed state. -/
theorem Commit_fst_m_state (cl : CommandListBase) (q : Nat)
    (h : cl.m_state = CLState.Pending) :
    ((CommandListBase.Commit cl q).1).m_state = CLState.Committed := by
  have hc : ¬(cl.m_state ≠ CLState.Pending) := by simp [h]
  simp only [CommandListBase.Commit, if_neg hc]
  split
  · rw [PopDebugGroup_fst_m_state]
  · rfl

/-- A successful Commit records the queue's current frame index. -/
theorem Commit_fst_m_frame (cl : CommandListBase) (q : Nat)
    (h : cl.m_state = CLState.Pending) :
    ((CommandListBase.Commit cl q).1).m_committed_frame_index = q := by
  have hc : ¬(cl.m_state ≠ CLState.Pending) := by simp [h]
  simp only [CommandListBase.Commit, if_neg hc]
  split
  · rw [PopDebugGroup_fst_m_frame]
  · rfl

/-- A successful Commit pops exactly one debug group when any are open:
the stack is left with its tail. -/
theorem Commit_fst_m_groups (cl : CommandListBase) (q : Nat)
    (h : cl.m_state = CLState.Pending) :
    ((CommandListBase.Commit cl q).1).m_open_debug_groups =
      cl.m_open_debug_groups.tail := by
  have hc : ¬(cl.m_state ≠ CLState.Pending) := by simp [h]
  simp only [CommandListBase.Commit, if_neg hc]
  split
  · rw [PopDebugGroup_fst_m_groups]
  · rename_i hemp
    have : cl.m_open_debug_groups.isEmpty = true := by
      revert hemp
      rcases cl.m_open_debug_groups with _ | ⟨a, rest⟩ <;> simp
    rcases hg : cl.m_open_debug_groups with _ | ⟨a, rest⟩
    · simp
    · rw [hg] at this; simp at this

/-- A successful Commit reports no error. -/
theorem Commit_snd_of_pending (cl : CommandListBase) (q : Nat)
    (h : cl.m_state = CLState.Pending) :
    (CommandListBase.Commit cl q).2 = none := by
  have hc : ¬(cl.m_state ≠ CLState.Pending) := by simp [h]
  simp only [CommandListBase.Commit, if_neg hc]

/-- Commit on a non-pending list throws without changing anything. -/
theorem Commit_not_pending (cl : CommandListBase) (q : Nat)
    (h : cl.m_state ≠ CLState.Pending) :
    CommandListBase.Commit cl q = (cl, some Err.logicErr) := by
  simp [CommandListBase.Commit, h]

/-! Concrete command lists used as witnesses. -/

/-- A pending command list with no open debug groups. -/
def examplePendingList : CommandListBase :=
  { m_state := CLState.Pending, m_committed_frame_index := 0,
    m_open_debug_groups := [], m_command_state := { p_program_bindings := none } }

/-- A committed command list whose committed frame index is 5. -/
def exampleCommittedList : CommandListBase :=
  { m_state := CLState.Committed, m_committed_frame_index := 5,
    m_open_debug_groups := [], m_command_state := { p_program_bindings := none } }

/-- An executing command list whose committed frame index is 5. -/
def exampleExecutingList : CommandListBase :=
  { m_state := CLState.Executing, m_committed_frame_index := 5,
    m_open_debug_groups := [], m_command_state := { p_program_bindings := none } }

/-- A pending command list with two open debug groups (B pushed over A). -/
def exampleTwoGroupList : CommandListBase :=
  { m_state := CLState.Pending, m_committed_frame_index := 0,
    m_open_debug_groups := ["B", "A"],
    m_command_state := { p_program_bindings := none } }

/-- A pending command list with one open debug group and recorded
program bindings. -/
def exampleOneGroupList : CommandListBase :=
  { m_state := CLState.Pending, m_committed_frame_index := 0,
    m_open_debug_groups := ["X"],
    m_command_state := { p_program_bindings := some 3 } }

/-- C1: Commit is legal only in the Pending state, Execute only in
Committed, Complete only in Executing; Execute and Complete called in
Pending fail with a logic error, a second Commit without an intervening
Reset+execute cycle fails, and every rejected call throws returning the
list unchanged (state field, committed frame index and debug-group stack
untouched). -/
theorem claim_C1_command_list_state_legality
    (cl : CommandListBase) (f q1 q2 : Nat) :
    (cl.m_state ≠ CLState.Pending →
      CommandListBase.Commit cl q1 = (cl, some Err.logicErr)) ∧
    (cl.m_state ≠ CLState.Committed →
      CommandListBase.Execute cl f = (cl, some Err.logicErr)) ∧
    (cl.m_state ≠ CLState.Executing →
      CommandListBase.Complete cl f = (cl, some Err.logicErr)) ∧
    (cl.m_state = CLState.Pending →
      CommandListBase.Execute cl f = (cl, some Err.logicErr) ∧
      CommandListBase.Complete cl f = (cl, some Err.logicErr) ∧
      CommandListBase.Commit (CommandListBase.Commit cl q1).1 q2 =
        ((CommandListBase.Commit cl q1).1, some Err.logicErr)) := by
  refine ⟨?_, ?_, ?_, ?_⟩
  · intro h; simp [CommandListBase.Commit, h]
  · intro h; simp [CommandListBase.Execute, h]
  · intro h; simp [CommandListBase.Complete, h]
  · intro h
    refine ⟨?_, ?_, ?_⟩
    · simp [CommandListBase.Execute, h]
    · simp [CommandListBase.Complete, h]
    · exact Commit_not_pending _ q2
        (by rw [Commit_fst_m_state cl q1 h]; decide)

/-- C1 witness: on a concrete pending list, Execute and Complete fail
with a logic error leaving the list unchanged, and a second Commit after
a successful one fails. -/
theorem claim_C1_witness :
    CommandListBase.Execute examplePendingList 0 =
      (examplePendingList, some Err.logicErr) ∧
    CommandListBase.Complete examplePendingList 0 =
      (examplePendingList, some Err.logicErr) ∧
    CommandListBase.Commit (CommandListBase.Commit examplePendingList 1).1 2 =
      ((CommandListBase.Commit examplePendingList 1).1, some Err.logicErr) :=
  (claim_C1_command_list_state_legality examplePendingList 0 1 2).2.2.2 rfl

/-- C2: Execute(f) succeeds exactly when the list is Committed and f
equals the committed frame index; Complete(f) succeeds exactly when the
list is Executing and f equals the committed frame index; any other
frame index makes them throw a logic error with the list unchanged; and
a successful Commit records the queue's current frame index as the
committed frame index. -/
theorem claim_C2_frame_index_coherence
    (cl : CommandListBase) (f q : Nat) :
    (cl.m_state = CLState.Committed →
      ((CommandListBase.Execute cl f).2 = none ↔
        f = cl.m_committed_frame_index) ∧
      (f ≠ cl.m_committed_frame_index →
        CommandListBase.Execute cl f = (cl, some Err.logicErr))) ∧
    (cl.m_state = CLState.Executing →
      ((CommandListBase.Complete cl f).2 = none ↔
        f = cl.m_committed_frame_index) ∧
      (f ≠ cl.m_committed_frame_index →
        CommandListBase.Complete cl f = (cl, some Err.logicErr))) ∧
    (cl.m_state = CLState.Pending →
      ((CommandListBase.Commit cl q).1).m_committed_frame_index = q) := by
  refine ⟨?_, ?_, ?_⟩
  · intro h
    constructor
    · by_cases hf : cl.m_committed_frame_index = f
      · simp [CommandListBase.Execute, h, hf]
      · simp [CommandListBase.Execute, h, hf]
        omega
    · intro hf
      have : cl.m_committed_frame_index ≠ f := fun hx => hf hx.symm
      simp [CommandListBase.Execute, h, this]
  · intro h
    constructor
    · by_cases hf : cl.m_committed_frame_index = f
      · simp [CommandListBase.Complete, h, hf]
      · simp [CommandListBase.Complete, h, hf]
        omega
    · intro hf
      have : cl.m_committed_frame_index ≠ f := fun hx => hf hx.symm
      simp [CommandListBase.Complete, h, this]
  · intro h
    exact Commit_fst_m_frame cl q h

/-- C2 witness: on concrete committed and executing lists with committed
frame index 5, frame index 5 succeeds and frame index 4 fails, and a
concrete Commit on frame 7 records 7. -/
theorem claim_C2_witness :
    (CommandListBase.Execute exampleCommittedList 5).2 = none ∧
    CommandListBase.Execute exampleCommittedList 4 =
      (exampleCommittedList, some Err.logicErr) ∧
    (CommandListBase.Complete exampleExecutingList 5).2 = none ∧
    CommandListBase.Complete exampleExecutingList 4 =
      (exampleExecutingList, some Err.logicErr) ∧
    ((CommandListBase.Commit examplePendingList 7).1).m_committed_frame_index = 7 :=
  ⟨((claim_C2_frame_index_coherence exampleCommittedList 5 0).1 rfl).1.mpr rfl,
   ((claim_C2_frame_index_coherence exampleCommittedList 4 0).1 rfl).2 (by decide),
   ((claim_C2_frame_index_coherence exampleExecutingList 5 0).2.1 rfl).1.mpr rfl,
   ((claim_C2_frame_index_coherence exampleExecutingList 4 0).2.1 rfl).2 (by decide),
   (claim_C2_frame_index_coherence examplePendingList 0 7).2.2 rfl⟩

/-- C3: the full Reset(debug_group) (base Reset followed by
ResetCommandState per the NOTE in the source) fails with a logic error
outside the Pending state leaving the list unchanged; in Pending it
succeeds, clears the program-bindings pointer of the recording state,
keeps the same group open when the requested name equals the top one,
and otherwise closes the previously open group and opens the new one
(no group for an empty name). -/
theorem claim_C3_reset_behavior (cl : CommandListBase) (dg : String) :
    (cl.m_state ≠ CLState.Pending →
      CommandListBase.ResetFull cl dg = (cl, some Err.logicErr)) ∧
    (cl.m_state = CLState.Pending →
      (CommandListBase.ResetFull cl dg).2 = none ∧
      ((CommandListBase.ResetFull cl dg).1).m_state = CLState.Pending ∧
      ((CommandListBase.ResetFull cl dg).1).m_command_state.p_program_bindings
        = none ∧
      ((CommandListBase.ResetFull cl dg).1).m_open_debug_groups =
        (if cl.m_open_debug_groups.head? = some dg then
          cl.m_open_debug_groups
         else if dg = "" then cl.m_open_debug_groups.tail
         else dg :: cl.m_open_debug_groups.tail)) := by
  constructor
  · intro h
    simp [CommandListBase.ResetFull, CommandListBase.Reset, h]
  · intro h
    have hc : ¬(cl.m_state ≠ CLState.Pending) := by simp [h]
    rcases hg : cl.m_open_debug_groups with _ | ⟨top, rest⟩
    · by_cases hdg : dg = "" <;>
        simp [CommandListBase.ResetFull, CommandListBase.Reset, if_neg hc, hg,
          CommandListBase.PushDebugGroup, CommandListBase.PopDebugGroup,
          CommandListBase.ResetCommandState, CommandState.Create, h, hdg]
    · by_cases htop : top = dg
      · simp [CommandListBase.ResetFull, CommandListBase.Reset, if_neg hc, hg,
          CommandListBase.PushDebugGroup, CommandListBase.PopDebugGroup,
          CommandListBase.ResetCommandState, CommandState.Create, h, htop]
      · by_cases hdg : dg = ""
        · subst hdg
          simp [CommandListBase.ResetFull, CommandListBase.Reset, if_neg hc, hg,
            CommandListBase.PushDebugGroup, CommandListBase.PopDebugGroup,
            CommandListBase.ResetCommandState, CommandState.Create, h, htop]
        · simp [CommandListBase.ResetFull, CommandListBase.Reset, if_neg hc, hg,
            CommandListBase.PushDebugGroup, CommandListBase.PopDebugGroup,
            CommandListBase.ResetCommandState, CommandState.Create, h, htop, hdg]

/-- C3 witness: resetting a concrete pending list that has group X open
and recorded bindings, with requested group Y, succeeds, clears the
bindings pointer and replaces the open group by Y. -/
theorem claim_C3_witness :
    (CommandListBase.ResetFull exampleOneGroupList "Y").2 = none ∧
    ((CommandListBase.ResetFull exampleOneGroupList "Y").1).m_command_state.p_program_bindings = none ∧
    ((CommandListBase.ResetFull exampleOneGroupList "Y").1).m_open_debug_groups = ["Y"] := by
  have h := (claim_C3_reset_behavior exampleOneGroupList "Y").2 rfl
  refine ⟨h.1, h.2.2.1, ?_⟩
  rw [h.2.2.2]
  decide

/-- C4 counterexample: on a pending command list with two open debug
groups, Commit succeeds but leaves the older group still open, so it is
not true that no debug group remains open after Commit returns. -/
theorem claim_C4_counterexample :
    (CommandListBase.Commit exampleTwoGroupList 5).2 = none ∧
    ((CommandListBase.Commit exampleTwoGroupList 5).1).m_open_debug_groups
      = ["A"] := by
  decide

/-- C4 (amended): for every pending command list, Commit succeeds,
records the queue's current frame index as the committed frame index,
transitions to Committed, and closes only the most recently opened debug
group (the stack keeps its tail); in particular no group remains open
only when at most one group was open. -/
theorem claim_C4_commit_behavior (cl : CommandListBase) (q : Nat)
    (h : cl.m_state = CLState.Pending) :
    (CommandListBase.Commit cl q).2 = none ∧
    ((CommandListBase.Commit cl q).1).m_state = CLState.Committed ∧
    ((CommandListBase.Commit cl q).1).m_committed_frame_index = q ∧
    ((CommandListBase.Commit cl q).1).m_open_debug_groups =
      cl.m_open_debug_groups.tail ∧
    (cl.m_open_debug_groups.length ≤ 1 →
      ((CommandListBase.Commit cl q).1).m_open_debug_groups = []) := by
  refine ⟨Commit_snd_of_pending cl q h, Commit_fst_m_state cl q h,
    Commit_fst_m_frame cl q h, Commit_fst_m_groups cl q h, ?_⟩
  intro hlen
  rw [Commit_fst_m_groups cl q h]
  rcases hg : cl.m_open_debug_groups with _ | ⟨a, rest⟩
  · simp
  · rw [hg] at hlen
    simp at hlen
    exact hlen

/-- C4 witness: committing a concrete pending list with one open debug
group on frame 3 succeeds, records frame 3, transitions to Committed and
leaves no open debug group. -/
theorem claim_C4_witness :
    (CommandListBase.Commit exampleOneGroupList 3).2 = none ∧
    ((CommandListBase.Commit exampleOneGroupList 3).1).m_state
      = CLState.Committed ∧
    ((CommandListBase.Commit exampleOneGroupList 3).1).m_committed_frame_index
      = 3 ∧
    ((CommandListBase.Commit exampleOneGroupList 3).1).m_open_debug_groups
      = [] := by
  have h := claim_C4_commit_behavior exampleOneGroupList 3 rfl
  exact ⟨h.1, h.2.1, h.2.2.1, h.2.2.2.2 (by decide)⟩

/-- C5: starting from an empty debug-group stack, pushing groups A then
B and popping twice succeeds and returns to the empty stack, and a third
pop fails with an underflow error; in general popping an empty stack is
always an underflow error and a pop exactly undoes a push. -/
theorem claim_C5_debug_group_balance (cl : CommandListBase)
    (h : cl.m_open_debug_groups = []) :
    ((CommandListBase.PopDebugGroup
        (CommandListBase.PushDebugGroup
          (CommandListBase.PushDebugGroup cl "A") "B")).2 = none) ∧
    ((CommandListBase.PopDebugGroup
        (CommandListBase.PopDebugGroup
          (CommandListBase.PushDebugGroup
            (CommandListBase.PushDebugGroup cl "A") "B")).1).2 = none) ∧
    (((CommandListBase.PopDebugGroup
        (CommandListBase.PopDebugGroup
          (CommandListBase.PushDebugGroup
            (CommandListBase.PushDebugGroup cl "A") "B")).1).1).m_open_debug_groups = []) ∧
    (CommandListBase.PopDebugGroup
        ((CommandListBase.PopDebugGroup
          (CommandListBase.PopDebugGroup
            (CommandListBase.PushDebugGroup
              (CommandListBase.PushDebugGroup cl "A") "B")).1).1)).2
      = some Err.underflowErr ∧
    CommandListBase.PopDebugGroup cl = (cl, some Err.underflowErr) ∧
    ∀ (cl0 : CommandListBase) (name : String),
      (CommandListBase.PopDebugGroup
        (CommandListBase.PushDebugGroup cl0 name)).1 = cl0 := by
  refine ⟨?_, ?_, ?_, ?_, ?_, ?_⟩
  · simp [CommandListBase.PushDebugGroup, CommandListBase.PopDebugGroup, h]
  · simp [CommandListBase.PushDebugGroup, CommandListBase.PopDebugGroup, h]
  · simp [CommandListBase.PushDebugGroup, CommandListBase.PopDebugGroup, h]
  · simp [CommandListBase.PushDebugGroup, CommandListBase.PopDebugGroup, h]
  · simp [CommandListBase.PopDebugGroup, h]
  · intro cl0 name
    rfl

/-- C5 witness: on a concrete list with an empty stack, the pop after
pushes A, B twice empties the stack, the third pop underflows, popping
the empty stack underflows and pop undoes push. -/
theorem claim_C5_witness :
    (((CommandListBase.PopDebugGroup
        (CommandListBase.PopDebugGroup
          (CommandListBase.PushDebugGroup
            (CommandListBase.PushDebugGroup examplePendingList "A") "B")).1).1).m_open_debug_groups = []) ∧
    CommandListBase.PopDebugGroup examplePendingList =
      (examplePendingList, some Err.underflowErr) ∧
    (CommandListBase.PopDebugGroup
      (CommandListBase.PushDebugGroup examplePendingList "G")).1
      = examplePendingList :=
  ⟨(claim_C5_debug_group_balance examplePendingList rfl).2.2.1,
   (claim_C5_debug_group_balance examplePendingList rfl).2.2.2.2.1,
   (claim_C5_debug_group_balance examplePendingList rfl).2.2.2.2.2
     examplePendingList "G"⟩

/-! Resource-manager theorems. -/

/-- Looking up the position right after a list holds the appended
element. -/
theorem getElem?_append_singleton {α : Type} (l : List α) (a : α) :
    (l ++ [a])[l.length]? = some a := by
  induction l with
  | nil => rfl
  | cons b bs ih => simp [ih]

/-- bucketCheck succeeds exactly when every heap in the bucket reports
the bucket's type. -/
theorem bucketCheck_ok_iff (t : DescriptorHeapType) (l : List DescriptorHeap) :
    ResourceManager.bucketCheck t l = .ok () ↔
      ∀ h ∈ l, h.settings.type = t := by
  induction l with
  | nil => simp [ResourceManager.bucketCheck]
  | cons a as ih =>
    by_cases ha : a.settings.type = t
    · simp [ResourceManager.bucketCheck, ha, ih]
    · simp [ResourceManager.bucketCheck, ha]

/-- The traversal of ForEachDescriptorHeapCheck succeeds on a list of
types exactly when every visited bucket passes its check. -/
theorem foreach_go_ok_iff (rm : ResourceManager)
    (ts : List DescriptorHeapType) :
    ResourceManager.ForEachDescriptorHeapCheck.go rm ts = .ok () ↔
      ∀ t ∈ ts,
        ResourceManager.bucketCheck t (rm.m_descriptor_heap_types t)
          = .ok () := by
  induction ts with
  | nil => simp [ResourceManager.ForEachDescriptorHeapCheck.go]
  | cons t ts ih =>
    rcases hc : ResourceManager.bucketCheck t (rm.m_descriptor_heap_types t)
      with e | u
    · simp [ResourceManager.ForEachDescriptorHeapCheck.go, hc]
    · cases u
      simp [ResourceManager.ForEachDescriptorHeapCheck.go, hc, ih]

/-- An empty resource manager used as a witness. -/
def exampleManager : ResourceManager :=
  { m_deferred_heap_allocation := false,
    m_descriptor_heap_types := fun _ => [] }

/-- Concrete resource-manager settings used as a witness: deferred
allocation on, default sizes 100+idx, shader-visible sizes 200+idx. -/
def exampleRMSettings : ResourceManagerSettings :=
  { default_heap_sizes := fun idx => 100 + idx,
    shader_visible_heap_sizes := fun idx => 200 + idx,
    deferred_heap_allocation := true }

/-- Concrete descriptor-heap settings of a valid type used as a
witness. -/
def exampleHeapSettings : DescriptorHeapSettings :=
  { type := DescriptorHeapType.RenderTargets, size := 7,
    deferred_allocation := true, shader_visible := false }

/-- C6: Initialize creates, for every real heap type, exactly one
CPU-only heap sized per default_heap_sizes at that type's index, plus
exactly one shader-visible heap sized per shader_visible_heap_sizes only
for shader-visible-capable types; the deferred-allocation flag from the
settings propagates to the manager and to every heap created, and every
created heap carries its bucket's type. -/
theorem claim_C6_initialize_heaps (rm : ResourceManager)
    (s : ResourceManagerSettings) (t : DescriptorHeapType)
    (h : t.isSentinel = false) :
    (ResourceManager.Initialize rm s).m_deferred_heap_allocation =
      s.deferred_heap_allocation ∧
    ((ResourceManager.Initialize rm s).m_descriptor_heap_types t).filter
        (fun hp => !hp.settings.shader_visible) =
      [DescriptorHeap.Create
        ⟨t, s.default_heap_sizes t.index, s.deferred_heap_allocation, false⟩] ∧
    ((ResourceManager.Initialize rm s).m_descriptor_heap_types t).filter
        (fun hp => hp.settings.shader_visible) =
      (if IsShaderVisibleHeapType t then
        [DescriptorHeap.Create
          ⟨t, s.shader_visible_heap_sizes t.index,
            s.deferred_heap_allocation, true⟩]
       else []) ∧
    (∀ hp ∈ (ResourceManager.Initialize rm s).m_descriptor_heap_types t,
      hp.settings.deferred_allocation = s.deferred_heap_allocation ∧
      hp.settings.type = t) := by
  cases t <;>
    simp_all [ResourceManager.Initialize, ResourceManager.initBucket,
      DescriptorHeap.Create, IsShaderVisibleHeapType,
      DescriptorHeapType.isSentinel, DescriptorHeapType.index]

/-- C6 witness: initializing an empty manager with concrete settings
gives the shader-resources bucket one CPU heap of size 100 and one
shader-visible heap of size 200, and the render-targets bucket no
shader-visible heap; the deferred flag is stored. -/
theorem claim_C6_witness :
    (ResourceManager.Initialize exampleManager
      exampleRMSettings).m_deferred_heap_allocation = true ∧
    ((ResourceManager.Initialize exampleManager
        exampleRMSettings).m_descriptor_heap_types
          DescriptorHeapType.ShaderResources).filter
        (fun hp => hp.settings.shader_visible) =
      [DescriptorHeap.Create
        ⟨DescriptorHeapType.ShaderResources, 200, true, true⟩] ∧
    ((ResourceManager.Initialize exampleManager
        exampleRMSettings).m_descriptor_heap_types
          DescriptorHeapType.RenderTargets).filter
        (fun hp => hp.settings.shader_visible) = [] := by
  have h1 := claim_C6_initialize_heaps exampleManager exampleRMSettings
    DescriptorHeapType.ShaderResources rfl
  have h2 := claim_C6_initialize_heaps exampleManager exampleRMSettings
    DescriptorHeapType.RenderTargets rfl
  refine ⟨h1.1, ?_, ?_⟩
  · rw [h1.2.2.1]; rfl
  · rw [h2.2.2.1]; rfl

/-- C7: CreateDescriptorHeap with a sentinel type (Undefined or Count)
always fails with an invalid-argument error and changes nothing; with a
valid type it appends a heap and returns an index at which
GetDescriptorHeap with the same type finds a heap whose reported type
equals the requested type, and it preserves the bucket invariant; the
invariant that every heap stored under the type-t bucket reports type t
is established by Initialize, and ForEachDescriptorHeap fails with a
logic error exactly when some bucket violates it. -/
theorem claim_C7_heap_type_integrity (rm : ResourceManager)
    (s : DescriptorHeapSettings) (st : ResourceManagerSettings) :
    (s.type.isSentinel = true →
      ResourceManager.CreateDescriptorHeap rm s =
        (rm, .error Err.invalidArgErr)) ∧
    (s.type.isSentinel = false →
      (ResourceManager.CreateDescriptorHeap rm s).2 =
        .ok (rm.m_descriptor_heap_types s.type).length ∧
      ResourceManager.GetDescriptorHeap
          (ResourceManager.CreateDescriptorHeap rm s).1 s.type
          (rm.m_descriptor_heap_types s.type).length =
        .ok (DescriptorHeap.Create s) ∧
      (DescriptorHeap.Create s).settings.type = s.type ∧
      (ResourceManager.heapsTypeConsistent rm →
        ResourceManager.heapsTypeConsistent
          (ResourceManager.CreateDescriptorHeap rm s).1)) ∧
    (ResourceManager.ForEachDescriptorHeapCheck rm = .ok () ↔
      ResourceManager.heapsTypeConsistent rm) ∧
    ResourceManager.heapsTypeConsistent (ResourceManager.Initialize rm st) := by
  refine ⟨?_, ?_, ?_, ?_⟩
  · intro h
    simp [ResourceManager.CreateDescriptorHeap, h]
  · intro h
    refine ⟨?_, ?_, rfl, ?_⟩
    · simp [ResourceManager.CreateDescriptorHeap, h]
    · simp [ResourceManager.CreateDescriptorHeap, h,
        ResourceManager.GetDescriptorHeap, getElem?_append_singleton]
    · intro hcons t ht hp hmem
      simp [ResourceManager.CreateDescriptorHeap, h] at hmem
      by_cases hts : t = s.type
      · subst hts
        simp at hmem
        rcases hmem with hold | hnew
        · exact hcons s.type ht hp hold
        · subst hnew
          rfl
      · simp [hts] at hmem
        exact hcons t ht hp hmem
  · rw [show ResourceManager.ForEachDescriptorHeapCheck rm =
      ResourceManager.ForEachDescriptorHeapCheck.go rm
        ResourceManager.realHeapTypes from rfl]
    rw [foreach_go_ok_iff]
    constructor
    · intro hall t ht
      exact (bucketCheck_ok_iff t _).mp (hall t ht)
    · intro hall t ht
      exact (bucketCheck_ok_iff t _).mpr (hall t ht)
  · intro t ht hp hmem
    simp [ResourceManager.realHeapTypes] at ht
    rcases ht with h | h | h | h <;> subst h <;>
      simp_all [ResourceManager.Initialize, ResourceManager.initBucket,
        DescriptorHeap.Create, IsShaderVisibleHeapType,
        DescriptorHeapType.isSentinel] <;>
      rcases hmem with h1 | h1 <;> simp [h1]

/-- C7 witness: on an empty manager, creating an Undefined-type heap
fails unchanged; creating a concrete render-target heap returns index 0
and GetDescriptorHeap finds a heap of type RenderTargets there; the
consistency traversal succeeds on the empty manager. -/
theorem claim_C7_witness :
    ResourceManager.CreateDescriptorHeap exampleManager
      ⟨DescriptorHeapType.Undefined, 5, false, false⟩ =
      (exampleManager, .error Err.invalidArgErr) ∧
    (ResourceManager.CreateDescriptorHeap exampleManager
      exampleHeapSettings).2 = .ok 0 ∧
    ResourceManager.GetDescriptorHeap
      (ResourceManager.CreateDescriptorHeap exampleManager
        exampleHeapSettings).1 DescriptorHeapType.RenderTargets 0 =
      .ok (DescriptorHeap.Create exampleHeapSettings) ∧
    ResourceManager.ForEachDescriptorHeapCheck exampleManager = .ok () := by
  have h1 := (claim_C7_heap_type_integrity exampleManager
    ⟨DescriptorHeapType.Undefined, 5, false, false⟩ exampleRMSettings).1 rfl
  have h2 := (claim_C7_heap_type_integrity exampleManager
    exampleHeapSettings exampleRMSettings).2.1 rfl
  have h3 := (claim_C7_heap_type_integrity exampleManager
    exampleHeapSettings exampleRMSettings).2.2.1
  refine ⟨h1, h2.1, h2.2.1, ?_⟩
  exact h3.mpr (by intro t ht hp hmem; simp [exampleManager] at hmem)

/-! Render-pass theorems. -/

/-- The attachment value comparison of the source coincides with
structural equality. -/
theorem Attachment_eq_iff (a b : Attachment) :
    Attachment.eq a b = true ↔ a = b := by
  cases a; cases b
  simp [Attachment.eq, Attachment.mk.injEq, Bool.and_eq_true, beq_iff_eq,
    and_assoc]

/-- The color-attachment value comparison coincides with structural
equality. -/
theorem ColorAttachment_eq_iff (a b : ColorAttachment) :
    ColorAttachment.eq a b = true ↔ a = b := by
  cases a; cases b
  simp [ColorAttachment.eq, Attachment_eq_iff, ColorAttachment.mk.injEq,
    Bool.and_eq_true, beq_iff_eq]

/-- The depth-attachment value comparison coincides with structural
equality. -/
theorem DepthAttachment_eq_iff (a b : DepthAttachment) :
    DepthAttachment.eq a b = true ↔ a = b := by
  cases a; cases b
  simp [DepthAttachment.eq, Attachment_eq_iff, DepthAttachment.mk.injEq,
    Bool.and_eq_true, beq_iff_eq]

/-- The stencil-attachment value comparison coincides with structural
equality. -/
theorem StencilAttachment_eq_iff (a b : StencilAttachment) :
    StencilAttachment.eq a b = true ↔ a = b := by
  cases a; cases b
  simp [StencilAttachment.eq, Attachment_eq_iff, StencilAttachment.mk.injEq,
    Bool.and_eq_true, beq_iff_eq]

/-- Element-wise list comparison by a faithful comparison is list
equality. -/
theorem listEqBy_eq_iff {α : Type} (f : α → α → Bool)
    (hf : ∀ a b, f a b = true ↔ a = b) :
    ∀ as_ bs : List α, listEqBy f as_ bs = true ↔ as_ = bs := by
  intro as_
  induction as_ with
  | nil => intro bs; cases bs <;> simp [listEqBy]
  | cons a as_ ih =>
    intro bs
    cases bs with
    | nil => simp [listEqBy]
    | cons b bs => simp [listEqBy, Bool.and_eq_true, hf, ih]

/-- RenderPass::Settings::operator== is value equality of the settings:
attachments, shader-access mask and final-pass flag are all compared by
value. -/
theorem RenderPassSettings_eq_iff (a b : RenderPassSettings) :
    RenderPassSettings.eq a b = true ↔ a = b := by
  cases a; cases b
  simp [RenderPassSettings.eq, RenderPassSettings.mk.injEq,
    Bool.and_eq_true, beq_iff_eq,
    listEqBy_eq_iff ColorAttachment.eq ColorAttachment_eq_iff,
    DepthAttachment_eq_iff, StencilAttachment_eq_iff, and_assoc]

/-- Setting a texture's state records exactly that state for it. -/
theorem getState_setRaw_self (ts : TexStates) (id : Nat) (s : ResState) :
    (ts.setRaw id s).getState id = s := by
  simp [TexStates.getState, TexStates.setRaw]

/-- A depth attachment (or stencil attachment) standing for "absent":
a default attachment with a null texture. -/
def exampleNoDepth : DepthAttachment :=
  { sp_texture := none, level := 0, slice := 0, depth_plane := 0,
    load_action := LoadAction.DontCare, store_action := StoreAction.DontCare,
    clear_value := 0 }

/-- An absent stencil attachment. -/
def exampleNoStencil : StencilAttachment :=
  { sp_texture := none, level := 0, slice := 0, depth_plane := 0,
    load_action := LoadAction.DontCare, store_action := StoreAction.DontCare,
    clear_value := 0 }

/-- A color attachment with texture 7, Clear load and Store store
actions. -/
def exampleColorAtt : ColorAttachment :=
  { sp_texture := some 7, level := 0, slice := 0, depth_plane := 0,
    load_action := LoadAction.Clear, store_action := StoreAction.Store,
    clear_color := 0 }

/-- A color attachment with a null texture reference. -/
def exampleNullAtt : ColorAttachment :=
  { sp_texture := none, level := 0, slice := 0, depth_plane := 0,
    load_action := LoadAction.Clear, store_action := StoreAction.Store,
    clear_color := 0 }

/-- Render-pass settings with no attachments at all. -/
def exampleSettingsEmpty : RenderPassSettings :=
  { color_attachments := [], depth_attachment := exampleNoDepth,
    stencil_attachment := exampleNoStencil, shader_access_mask := 0,
    is_final_pass := false }

/-- Render-pass settings with one valid color attachment and no depth
attachment. -/
def exampleSettingsOneColor : RenderPassSettings :=
  { color_attachments := [exampleColorAtt], depth_attachment := exampleNoDepth,
    stencil_attachment := exampleNoStencil, shader_access_mask := 0,
    is_final_pass := false }

/-- A fresh render pass with no attachments and empty caches. -/
def examplePassEmpty : RenderPassBase :=
  { m_settings := exampleSettingsEmpty, m_is_begun := false,
    m_color_attachment_textures := [], m_p_depth_attachment_texture := none,
    m_non_frame_buffer_attachment_textures := [],
    m_sp_begin_transition_barriers := none,
    m_sp_end_transition_barriers := none }

/-- A fresh render pass with one valid color attachment (texture 7) and
no depth attachment. -/
def examplePassOneColor : RenderPassBase :=
  { m_settings := exampleSettingsOneColor, m_is_begun := false,
    m_color_attachment_textures := [], m_p_depth_attachment_texture := none,
    m_non_frame_buffer_attachment_textures := [],
    m_sp_begin_transition_barriers := none,
    m_sp_end_transition_barriers := none }

/-- A fresh render pass whose second color attachment has a null
texture while the first is valid (texture 7). -/
def examplePassNullSecond : RenderPassBase :=
  { m_settings :=
      { color_attachments := [exampleColorAtt, exampleNullAtt],
        depth_attachment := exampleNoDepth,
        stencil_attachment := exampleNoStencil, shader_access_mask := 0,
        is_final_pass := false },
    m_is_begun := false,
    m_color_attachment_textures := [], m_p_depth_attachment_texture := none,
    m_non_frame_buffer_attachment_textures := [],
    m_sp_begin_transition_barriers := none,
    m_sp_end_transition_barriers := none }

/-- C8 counterexample: updating a pass from empty settings to settings
with one color attachment succeeds and returns true, but afterwards the
memoized color-attachment-texture list is not dropped for lazy rebuild:
it already holds the new texture, because Update re-initializes
attachment states which refills the memoization before returning. -/
theorem claim_C8_counterexample :
    (RenderPassBase.Update examplePassEmpty [] exampleSettingsOneColor).2
      = none ∧
    ((RenderPassBase.Update examplePassEmpty [] exampleSettingsOneColor).1).2
      = true ∧
    (((RenderPassBase.Update examplePassEmpty []
        exampleSettingsOneColor).1).1.1).m_color_attachment_textures
      = [7] := by
  decide

/-- C8 (amended): Update with settings equal by value to the current
ones returns false and changes nothing (memoized lists and barrier sets
untouched); Update with differing settings whose color attachments all
have textures returns true, replaces the settings, clears the
non-frame-buffer texture list, the depth-texture pointer and both
transition-barrier sets for lazy rebuild, while the color-attachment
texture list is cleared and immediately refilled from the new settings
by the attachment-state re-initialization. -/
theorem claim_C8_update_memoization (rp : RenderPassBase) (ts : TexStates)
    (s : RenderPassSettings) :
    (rp.m_settings = s →
      RenderPassBase.Update rp ts s = (((rp, ts), false), none)) ∧
    (rp.m_settings ≠ s →
      ∀ texs : List Nat,
        RenderPassBase.buildColorTextures s.color_attachments [] =
          (texs, false) →
        (RenderPassBase.Update rp ts s).2 = none ∧
        ((RenderPassBase.Update rp ts s).1).2 = true ∧
        (((RenderPassBase.Update rp ts s).1).1.1).m_settings = s ∧
        (((RenderPassBase.Update rp ts
            s).1).1.1).m_non_frame_buffer_attachment_textures = [] ∧
        (((RenderPassBase.Update rp ts s).1).1.1).m_p_depth_attachment_texture
          = none ∧
        (((RenderPassBase.Update rp ts
            s).1).1.1).m_sp_begin_transition_barriers = none ∧
        (((RenderPassBase.Update rp ts s).1).1.1).m_sp_end_transition_barriers
          = none ∧
        (((RenderPassBase.Update rp ts s).1).1.1).m_color_attachment_textures
          = texs) := by
  constructor
  · intro h
    have he : RenderPassSettings.eq rp.m_settings s = true :=
      (RenderPassSettings_eq_iff rp.m_settings s).mpr h
    simp [RenderPassBase.Update, he]
  · intro h texs hbuild
    have he : ¬(RenderPassSettings.eq rp.m_settings s = true) := by
      rw [RenderPassSettings_eq_iff]
      exact h
    simp [RenderPassBase.Update, he, RenderPassBase.InitAttachmentStates,
      RenderPassBase.GetColorAttachmentTextures, hbuild]

/-- C8 witness: updating a concrete empty pass with its own settings is
a no-op returning false; updating it to one-color settings returns true,
clears the barrier sets and refills the color-texture memoization with
texture 7. -/
theorem claim_C8_witness :
    RenderPassBase.Update examplePassEmpty [] exampleSettingsEmpty =
      (((examplePassEmpty, []), false), none) ∧
    (((RenderPassBase.Update examplePassEmpty []
        exampleSettingsOneColor).1).1.1).m_sp_begin_transition_barriers
      = none ∧
    (((RenderPassBase.Update examplePassEmpty []
        exampleSettingsOneColor).1).1.1).m_color_attachment_textures
      = [7] := by
  have h1 := (claim_C8_update_memoization examplePassEmpty []
    exampleSettingsEmpty).1 rfl
  have h2 := (claim_C8_update_memoization examplePassEmpty []
    exampleSettingsOneColor).2 (by decide) [7] (by decide)
  exact ⟨h1, h2.2.2.2.2.2.1, h2.2.2.2.2.2.2.2⟩

/-- C9: for a render pass with one color attachment holding texture tid
and no depth attachment, with fresh memoization and barrier caches,
Begin fails with a logic error when the pass is already begun (nothing
changes); otherwise it succeeds, leaves the texture in the RenderTarget
state, and emits exactly one transition barrier (from the texture's old
state to RenderTarget) when the texture's state differed from
RenderTarget, and no barrier when the texture already was a
RenderTarget. -/
theorem claim_C9_begin_transition (rp : RenderPassBase) (ts : TexStates)
    (catt : ColorAttachment) (tid : Nat)
    (hatt : rp.m_settings.color_attachments = [catt])
    (htex : catt.sp_texture = some tid)
    (hdepth : rp.m_settings.depth_attachment.sp_texture = none)
    (hdcache : rp.m_p_depth_attachment_texture = none)
    (hcache : rp.m_color_attachment_textures = [] ∨
      rp.m_color_attachment_textures = [tid])
    (hbar : rp.m_sp_begin_transition_barriers = none) :
    (rp.m_is_begun = true →
      RenderPassBase.Begin rp ts = (((rp, ts), []), some Err.logicErr)) ∧
    (rp.m_is_begun = false →
      (RenderPassBase.Begin rp ts).2 = none ∧
      (((RenderPassBase.Begin rp ts).1).1.1).m_is_begun = true ∧
      TexStates.getState (((RenderPassBase.Begin rp ts).1).1.2) tid =
        ResState.RenderTarget ∧
      (ts.getState tid ≠ ResState.RenderTarget →
        ((RenderPassBase.Begin rp ts).1).2 =
          [⟨tid, ts.getState tid, ResState.RenderTarget⟩]) ∧
      (ts.getState tid = ResState.RenderTarget →
        ((RenderPassBase.Begin rp ts).1).2 = [])) := by
  constructor
  · intro h
    simp [RenderPassBase.Begin, h]
  · intro h
    by_cases hst : ts.getState tid = ResState.RenderTarget
    · rcases hcache with hc | hc <;>
        simp [RenderPassBase.Begin, h, RenderPassBase.SetAttachmentStates,
          RenderPassBase.GetColorAttachmentTextures, hc, hatt, htex,
          RenderPassBase.buildColorTextures, RenderPassBase.setStatesFold,
          Resource.SetState, hst, RenderPassBase.finishAttachmentStates,
          RenderPassBase.GetDepthAttachmentTexture, hdepth, hdcache,
          RenderPassBase.emitPhase, hbar]
    · rcases hcache with hc | hc <;>
        simp [RenderPassBase.Begin, h, RenderPassBase.SetAttachmentStates,
          RenderPassBase.GetColorAttachmentTextures, hc, hatt, htex,
          RenderPassBase.buildColorTextures, RenderPassBase.setStatesFold,
          Resource.SetState, hst, RenderPassBase.finishAttachmentStates,
          RenderPassBase.GetDepthAttachmentTexture, hdepth, hdcache,
          RenderPassBase.emitPhase, hbar, Barriers.add,
          getState_setRaw_self]

/-- C9 witness: beginning a concrete fresh pass with one color
attachment on texture 7 in the Common state succeeds and emits exactly
the one barrier Common to RenderTarget; the texture ends in the
RenderTarget state. -/
theorem claim_C9_witness :
    (RenderPassBase.Begin examplePassOneColor []).2 = none ∧
    ((RenderPassBase.Begin examplePassOneColor []).1).2 =
      [⟨7, ResState.Common, ResState.RenderTarget⟩] ∧
    TexStates.getState (((RenderPassBase.Begin examplePassOneColor
      []).1).1.2) 7 = ResState.RenderTarget := by
  have h := (claim_C9_begin_transition examplePassOneColor []
    exampleColorAtt 7 rfl rfl rfl rfl (Or.inl rfl) rfl).2 rfl
  exact ⟨h.1, h.2.2.2.1 (by decide), h.2.2.1⟩

/-- Walking color attachments that all hold textures never fails, and
appending a null-texture attachment afterwards makes the walk stop with
the partial accumulation and a failure flag. -/
theorem buildColorTextures_append_null (catt : ColorAttachment)
    (hnull : catt.sp_texture = none) :
    ∀ (pre rest : List ColorAttachment) (acc texs : List Nat),
      RenderPassBase.buildColorTextures pre acc = (texs, false) →
      RenderPassBase.buildColorTextures (pre ++ catt :: rest) acc =
        (texs, true) := by
  intro pre
  induction pre with
  | nil =>
    intro rest acc texs hb
    simp [RenderPassBase.buildColorTextures] at hb
    simp [RenderPassBase.buildColorTextures, hnull, hb]
  | cons a as_ ih =>
    intro rest acc texs hb
    rcases ha : a.sp_texture with _ | t
    · simp [RenderPassBase.buildColorTextures, ha] at hb
    · simp only [RenderPassBase.buildColorTextures, ha, List.cons_append] at hb ⊢
      exact ih rest (acc ++ [t]) texs hb

/-- C10: for a render pass whose color attachments are a non-empty
prefix of valid-texture attachments followed by a null-texture one,
with an empty memoization cache, the first GetColorAttachmentTextures
call throws invalid-argument but leaves the memoization holding the
prefix's textures, and every subsequent call returns that non-empty
partial list without raising. -/
theorem claim_C10_partial_memoization (rp : RenderPassBase)
    (pre rest : List ColorAttachment) (catt : ColorAttachment)
    (texs : List Nat)
    (hcache : rp.m_color_attachment_textures = [])
    (hatts : rp.m_settings.color_attachments = pre ++ catt :: rest)
    (hpre : RenderPassBase.buildColorTextures pre [] = (texs, false))
    (hne : texs ≠ [])
    (hnull : catt.sp_texture = none) :
    (RenderPassBase.GetColorAttachmentTextures rp).2 =
      .error Err.invalidArgErr ∧
    ((RenderPassBase.GetColorAttachmentTextures
        rp).1).m_color_attachment_textures = texs ∧
    RenderPassBase.GetColorAttachmentTextures
        ((RenderPassBase.GetColorAttachmentTextures rp).1) =
      ((RenderPassBase.GetColorAttachmentTextures rp).1, .ok texs) := by
  have hb := buildColorTextures_append_null catt hnull pre rest [] texs hpre
  refine ⟨?_, ?_, ?_⟩ <;>
    simp [RenderPassBase.GetColorAttachmentTextures, hcache, hatts, hb, hne]

/-- C10 witness: on a concrete pass whose first color attachment holds
texture 7 and whose second has a null texture, the first call fails with
invalid-argument leaving the memoization at the partial list containing
7, and the second call returns that list without raising. -/
theorem claim_C10_witness :
    (RenderPassBase.GetColorAttachmentTextures examplePassNullSecond).2 =
      .error Err.invalidArgErr ∧
    ((RenderPassBase.GetColorAttachmentTextures
        examplePassNullSecond).1).m_color_attachment_textures = [7] ∧
    RenderPassBase.GetColorAttachmentTextures
        ((RenderPassBase.GetColorAttachmentTextures
          examplePassNullSecond).1) =
      ((RenderPassBase.GetColorAttachmentTextures examplePassNullSecond).1,
        .ok [7]) :=
  claim_C10_partial_memoization examplePassNullSecond [exampleColorAtt]
    [] exampleNullAtt [7] rfl rfl (by decide) (by decide) rfl

end Graphics
end Methane
